import Mathlib

/-
Verification of the event-replay streaming service
(sdks/python/apache_beam/testing/test_stream_service.py).

The service class TestStreamServiceController is embedded shallowly:
 - the Events remote call becomes a pure function of the reader method
   read_multiple and the request output identifiers; the generator body
   (for e in reader: yield e) becomes a structural forwarding function on
   generator traces;
 - a generator trace is an inductive value recording the events yielded in
   order and whether the producer finished normally or raised;
 - the server shell (construction, start, stop) is explicit state passing
   over a record of the controller fields; the underlying grpc transport is
   not part of the repository sources, so its binding and shutdown
   operations are modelled from the spec as an abstract transport.
-/

namespace TestStreamService

/-- A read key passed to the reader: a pair of the cache namespace and an
optional tag, as built by Events from ('full', tag) pairs. -/
abbrev ReadKey := String × Option String

/-- A generator trace: the sequence of events a producer yields, in order,
ending either normally (done) or by raising an error (fail). -/
inductive Gen (ε α : Type) where
  | done : Gen ε α
  | fail : ε → Gen ε α
  | yield : α → Gen ε α → Gen ε α
deriving DecidableEq

namespace Gen

variable {ε α : Type}

/-- The list of events a generator trace yields before it finishes or
fails, in order. -/
def events : Gen ε α → List α
  | .done => []
  | .fail _ => []
  | .yield a r => a :: events r

/-- The terminal outcome of a generator trace: none when it finishes
normally, some e when it ends by raising e. -/
def outcome : Gen ε α → Option ε
  | .done => none
  | .fail e => some e
  | .yield _ r => outcome r

/-- Build the generator trace that yields the given events in order and
then ends with the given outcome: normally when none, raising when some. -/
def ofList : List α → Option ε → Gen ε α
  | [], none => .done
  | [], some e => .fail e
  | a :: as, r => .yield a (ofList as r)

end Gen

variable {ε α : Type}

/-- The forwarding loop of Events, `for e in reader: yield e`: each
produced event is re-yielded as it arrives; an error raised by the producer
propagates out of the loop. -/
def forward : Gen ε α → Gen ε α
  | .done => .done
  | .fail e => .fail e
  | .yield a r => .yield a (forward r)

/-- Tag normalization performed by Events on each output identifier:
`None if tag == 'None' else tag`. -/
def normalizeTag (tag : String) : Option String :=
  if tag = "None" then none else some tag

/-- The ordered sequence of read keys Events builds from the request:
normalize each output identifier, then pair the fixed namespace constant
with each normalized tag, preserving order and duplicates. -/
def eventsKeys (output_ids : List String) : List ReadKey :=
  (output_ids.map normalizeTag).map fun tag => ("full", tag)

/-- The Events operation: build the read keys from the request output
identifiers, hand them to the reader method read_multiple in one call, and
forward the produced events to the caller. -/
def Events (read_multiple : List ReadKey → Gen ε α) (output_ids : List String) :
    Gen ε α :=
  forward (read_multiple (eventsKeys output_ids))

/-- An event request: the ordered sequence of output identifiers carried by
the remote call request. -/
structure EventRequest where
  output_ids : List String
deriving DecidableEq

/-- Lifecycle state of the underlying server. -/
inductive GrpcState where
  | unstarted : GrpcState
  | running : GrpcState
  | stopped : GrpcState
deriving DecidableEq

/-- Modelled from the spec: the underlying transport server (the grpc
server object), whose implementation is not among the repository sources.
The model records the lifecycle state, the addresses bound on it, whether
the servicer was registered, and the grace period of the last stop call. -/
structure GrpcServer where
  state : GrpcState
  boundAddrs : List String
  registered : Bool
  lastStopGrace : Option Nat
deriving DecidableEq

/-- Modelled from the spec: stopping the underlying server is safe in any
lifecycle state; it stops accepting new calls and, given grace g, aborts
in-flight calls after at most g time units. -/
def GrpcServer.stop (s : GrpcServer) (grace : Nat) : GrpcServer :=
  { s with state := .stopped, lastStopGrace := some grace }

/-- Modelled from the spec: wait_for_termination blocks until the server
has terminated; after a stop with grace g it returns within g time units
(some g); on a server whose stop was never issued it would block (none). -/
def GrpcServer.waitForTermination (s : GrpcServer) : Option Nat :=
  s.lastStopGrace

/-- Modelled from the spec: the bind error raised when a requested address
is unavailable (in use, invalid, permission denied). -/
structure BindError where
  msg : String
deriving DecidableEq

/-- Modelled from the spec: the transport port-binding operation
(add_insecure_port): given an address string it either assigns a port (for
an address with port 0, an ephemeral port chosen by the transport) or fails
with a BindError when the address is unavailable. -/
structure Transport where
  bind : String → Except BindError Nat

/-- The TestStreamServiceController: the underlying server handle, the
exposed endpoint string, and the reader held for Events. The reader is
represented by its read_multiple method. -/
structure TestStreamServiceController (ε α : Type) where
  server : GrpcServer
  endpoint : String
  reader : List ReadKey → Gen ε α

/-- Construction: create the server, bind either the explicit address or an
ephemeral loopback address, record the endpoint, register the servicer and
store the reader. The source guards the explicit branch with the truthiness
check `if endpoint:`, under which both a missing argument and the empty
string are falsy, so an explicit empty string is treated like no address
and takes the ephemeral branch. A bind failure propagates out of
construction, which has no handler for it. -/
def TestStreamServiceController.init (tr : Transport)
    (reader : List ReadKey → Gen ε α) (endpoint : Option String) :
    Except BindError (TestStreamServiceController ε α) :=
  match endpoint with
  | some ep =>
    if ep = "" then
      match tr.bind "localhost:0" with
      | .error e => .error e
      | .ok port =>
        .ok { server := { state := .unstarted, boundAddrs := ["localhost:0"],
                          registered := true, lastStopGrace := none },
              endpoint := "localhost:" ++ toString port, reader := reader }
    else
      match tr.bind ep with
      | .error e => .error e
      | .ok _ =>
        .ok { server := { state := .unstarted, boundAddrs := [ep],
                          registered := true, lastStopGrace := none },
              endpoint := ep, reader := reader }
  | none =>
    match tr.bind "localhost:0" with
    | .error e => .error e
    | .ok port =>
      .ok { server := { state := .unstarted, boundAddrs := ["localhost:0"],
                        registered := true, lastStopGrace := none },
            endpoint := "localhost:" ++ toString port, reader := reader }

/-- The start lifecycle call: start the underlying server. -/
def TestStreamServiceController.start (c : TestStreamServiceController ε α) :
    TestStreamServiceController ε α :=
  { c with server := { c.server with state := .running } }

/-- The stop lifecycle call: stop the underlying server with grace 0, then
wait for termination. The second component is the duration bound of the
termination wait performed. -/
def TestStreamServiceController.stop (c : TestStreamServiceController ε α) :
    TestStreamServiceController ε α × Option Nat :=
  let s := c.server.stop 0
  ({ c with server := s }, s.waitForTermination)

/-- Events run against a controller: the method reads only the stored
reader and assigns no field, so the controller state it leaves behind is
returned alongside the streamed generator. -/
def TestStreamServiceController.EventsCall (c : TestStreamServiceController ε α)
    (request : EventRequest) : TestStreamServiceController ε α × Gen ε α :=
  (c, Events c.reader request.output_ids)

/-- Forwarding a generator trace reproduces it unchanged. -/
theorem forward_eq (g : Gen ε α) : forward g = g := by
  induction g with
  | done => rfl
  | fail e => rfl
  | yield a r ih => simp [forward, ih]

/-- The events of an ofList trace are exactly the given list. -/
theorem Gen.events_ofList (es : List α) (r : Option ε) :
    (Gen.ofList es r).events = es := by
  induction es with
  | nil => cases r <;> rfl
  | cons a as ih => simp [Gen.ofList, Gen.events, ih]

/-- The outcome of an ofList trace is exactly the given outcome. -/
theorem Gen.outcome_ofList (es : List α) (r : Option ε) :
    (Gen.ofList es r).outcome = r := by
  induction es with
  | nil => cases r <;> rfl
  | cons a as ih => simp [Gen.ofList, Gen.outcome, ih]

/-- C1: for every request and every reader, the output of Events is exactly
the generator trace returned by the reader method read_multiple on the
derived keys: every event is forwarded exactly once, in the order produced,
and the stream ends exactly when the reader sequence is exhausted. -/
theorem events_output_eq_reader (read_multiple : List ReadKey → Gen ε α)
    (output_ids : List String) :
    Events read_multiple output_ids = read_multiple (eventsKeys output_ids) :=
  forward_eq _

/-- C2: the read key built for each output identifier carries an absent tag
exactly when the identifier is the sentinel string None, and carries the
identifier itself as its tag otherwise. -/
theorem events_key_sentinel_normalized (output_ids : List String) (i : Nat)
    (h : i < output_ids.length) :
    (eventsKeys output_ids).get ⟨i, by simpa [eventsKeys] using h⟩ =
      ("full",
        if output_ids.get ⟨i, h⟩ = "None" then none
        else some (output_ids.get ⟨i, h⟩)) := by
  simp [eventsKeys, normalizeTag]

/-- C2 witness: on the request ["None", "a"], the first key carries an
absent tag and the second carries the tag a. -/
theorem events_key_sentinel_normalized_example :
    (eventsKeys ["None", "a"]).get ⟨0, by simp [eventsKeys]⟩ = ("full", none) := by
  have h := events_key_sentinel_normalized ["None", "a"] 0 (by simp)
  simpa using h

/-- C3: Events builds exactly one key per output identifier, with the
normalized tags in the same order as the identifiers and duplicates
preserved, and passes the whole key sequence to read_multiple in one
call. -/
theorem events_keys_order_preserved (output_ids : List String) :
    (eventsKeys output_ids).length = output_ids.length ∧
    (eventsKeys output_ids).map Prod.snd = output_ids.map normalizeTag ∧
    ∀ read_multiple : List ReadKey → Gen ε α,
      Events read_multiple output_ids = read_multiple (eventsKeys output_ids) := by
  refine ⟨by simp [eventsKeys], by simp [eventsKeys], fun rm => forward_eq _⟩

/-- C4: when the reader produces some events and then raises, Events
delivers exactly those events in order and then ends with the failure
surfaced, not with a normal-looking completion. -/
theorem events_reader_error_propagates (read_multiple : List ReadKey → Gen ε α)
    (output_ids : List String) (es : List α) (err : ε)
    (h : read_multiple (eventsKeys output_ids) = Gen.ofList es (some err)) :
    (Events read_multiple output_ids).events = es ∧
    (Events read_multiple output_ids).outcome = some err := by
  rw [Events, forward_eq, h]
  exact ⟨Gen.events_ofList es (some err), Gen.outcome_ofList es (some err)⟩

/-- C4 witness: a reader that yields the event 7 and then raises boom makes
the call deliver exactly [7] and end with the failure boom. -/
theorem events_reader_error_propagates_example :
    (Events (fun _ => Gen.ofList [7] (some "boom")) ["a"]).events = [7] ∧
    (Events (fun _ => Gen.ofList [7] (some "boom")) ["a"]).outcome = some "boom" :=
  events_reader_error_propagates (fun _ => Gen.ofList [7] (some "boom"))
    ["a"] [7] "boom" rfl

/-- C5: constructing without an explicit address requests an ephemeral port
on the loopback address, and the endpoint recorded on the constructed
controller combines the loopback host with the port the transport assigned;
it is non-empty and readable before start, while the server is still
unstarted. -/
theorem init_ephemeral_endpoint (tr : Transport)
    (reader : List ReadKey → Gen ε α) (p : Nat)
    (h : tr.bind "localhost:0" = .ok p) :
    ∃ c : TestStreamServiceController ε α,
      TestStreamServiceController.init tr reader none = .ok c ∧
      c.endpoint = "localhost:" ++ toString p ∧
      c.endpoint ≠ "" ∧
      c.server.boundAddrs = ["localhost:0"] ∧
      c.server.state = .unstarted := by
  refine ⟨{ server := { state := .unstarted, boundAddrs := ["localhost:0"],
                        registered := true, lastStopGrace := none },
            endpoint := "localhost:" ++ toString p, reader := reader },
    by simp [TestStreamServiceController.init, h], rfl, ?_, rfl, rfl⟩
  intro hemp
  have := congrArg String.length hemp
  simp [String.length_append] at this
  exact absurd this.1 (by decide)

/-- C5 witness: with a transport assigning port 46123, construction with no
address yields the endpoint localhost:46123 on an unstarted server. -/
theorem init_ephemeral_endpoint_example :
    ∃ c : TestStreamServiceController String Nat,
      TestStreamServiceController.init ⟨fun _ => .ok 46123⟩
          (fun _ => Gen.done) none = .ok c ∧
      c.endpoint = "localhost:" ++ toString 46123 ∧
      c.endpoint ≠ "" ∧
      c.server.boundAddrs = ["localhost:0"] ∧
      c.server.state = .unstarted :=
  init_ephemeral_endpoint ⟨fun _ => .ok 46123⟩ (fun _ => Gen.done) 46123 rfl

/-- C6 counterexample: constructed with the explicit empty-string address,
the program does not bind that address and the exposed endpoint is not the
supplied string: the truthiness guard routes the empty string to the
ephemeral branch, which binds the loopback address and records the
transport-assigned port. -/
theorem init_explicit_empty_not_bound :
    ∃ c : TestStreamServiceController String Nat,
      TestStreamServiceController.init ⟨fun _ => .ok 5⟩ (fun _ => Gen.done)
          (some "") = .ok c ∧
      c.endpoint = "localhost:5" ∧
      c.endpoint ≠ "" ∧
      c.server.boundAddrs = ["localhost:0"] := by
  refine ⟨{ server := { state := .unstarted, boundAddrs := ["localhost:0"],
                        registered := true, lastStopGrace := none },
            endpoint := "localhost:" ++ toString 5,
            reader := fun _ => Gen.done },
    by simp [TestStreamServiceController.init], by decide, by decide, rfl⟩

/-- C6 amended: constructing with an explicit non-empty address binds
exactly that address and exposes it unchanged as the endpoint; when the
transport bind fails, the failure surfaces synchronously as the result of
construction. An explicit empty string is falsy under the source's
truthiness check and is treated like no address. -/
theorem init_explicit_endpoint (tr : Transport)
    (reader : List ReadKey → Gen ε α) (addr : String) (haddr : addr ≠ "") :
    (∀ p, tr.bind addr = .ok p →
      ∃ c : TestStreamServiceController ε α,
        TestStreamServiceController.init tr reader (some addr) = .ok c ∧
        c.endpoint = addr ∧ c.server.boundAddrs = [addr]) ∧
    (∀ e, tr.bind addr = .error e →
      TestStreamServiceController.init tr reader (some addr) = .error e) := by
  constructor
  · intro p hp
    exact ⟨{ server := { state := .unstarted, boundAddrs := [addr],
                         registered := true, lastStopGrace := none },
             endpoint := addr, reader := reader },
      by simp [TestStreamServiceController.init, haddr, hp], rfl, rfl⟩
  · intro e he
    simp [TestStreamServiceController.init, haddr, he]

/-- C6 witness: a transport granting the non-empty address binds it and the
endpoint equals it; a transport refusing the address makes construction
fail with that bind error. -/
theorem init_explicit_endpoint_example :
    (∃ c : TestStreamServiceController String Nat,
      TestStreamServiceController.init ⟨fun _ => .ok 9⟩
          (fun _ => Gen.done) (some "host:1234") = .ok c ∧
      c.endpoint = "host:1234" ∧ c.server.boundAddrs = ["host:1234"]) ∧
    TestStreamServiceController.init ⟨fun _ => .error ⟨"in use"⟩⟩
        (fun _ => (Gen.done : Gen String Nat)) (some "host:1234") =
      .error ⟨"in use"⟩ :=
  ⟨(init_explicit_endpoint ⟨fun _ => .ok 9⟩ (fun _ => Gen.done)
      "host:1234" (by decide)).1 9 rfl,
   (init_explicit_endpoint ⟨fun _ => .error ⟨"in use"⟩⟩ (fun _ => Gen.done)
      "host:1234" (by decide)).2 ⟨"in use"⟩ rfl⟩

/-- C7: stop is safe and idempotent in every controller state: a second
stop returns the controller and wait result of the first unchanged, the
termination wait it performs is bounded by the zero grace it passes, and
after stop the server is stopped, whether or not it was ever started. -/
theorem stop_idempotent_and_bounded (c : TestStreamServiceController ε α) :
    (c.stop.1).stop = c.stop ∧
    c.stop.2 = some 0 ∧
    (c.stop.1).server.state = .stopped := by
  refine ⟨?_, rfl, rfl⟩
  simp [TestStreamServiceController.stop, GrpcServer.stop,
    GrpcServer.waitForTermination]

/-- C8: every read key Events passes to the reader carries the fixed
namespace constant full as its first component. -/
theorem events_keys_namespace_full (output_ids : List String) (k : ReadKey)
    (h : k ∈ eventsKeys output_ids) : k.1 = "full" := by
  simp only [eventsKeys, List.mem_map] at h
  obtain ⟨t, _, rfl⟩ := h
  rfl

/-- C8 witness: the key built for the identifier a is in the key list of
the request [a] and its namespace is full. -/
theorem events_keys_namespace_full_example :
    ("full", some "a").1 = "full" :=
  events_keys_namespace_full ["a"] ("full", some "a")
    (by simp [eventsKeys, normalizeTag])

/-- C9: an Events call leaves every field of the controller unchanged, and
the output of a later call does not depend on an earlier call through the
controller state. -/
theorem events_call_stateless (c : TestStreamServiceController ε α)
    (r1 r2 : EventRequest) :
    (c.EventsCall r1).1 = c ∧
    (c.EventsCall r1).1.endpoint = c.endpoint ∧
    (c.EventsCall r1).1.reader = c.reader ∧
    (c.EventsCall r1).1.server = c.server ∧
    ((c.EventsCall r1).1.EventsCall r2).2 = (c.EventsCall r2).2 :=
  ⟨rfl, rfl, rfl, rfl, rfl⟩

/-- C10: normalization matches only the exact string None: every other
identifier, including the empty string, lowercase none, uppercase NONE and
whitespace-padded variants, passes through verbatim as its tag; and on an
empty identifier sequence read_multiple is still invoked, with the empty
key sequence. -/
theorem normalization_exact_and_empty_request :
    (∀ t : String, t ≠ "None" → normalizeTag t = some t) ∧
    normalizeTag "" = some "" ∧
    normalizeTag "none" = some "none" ∧
    normalizeTag "NONE" = some "NONE" ∧
    normalizeTag " None " = some " None " ∧
    eventsKeys [] = [] ∧
    ∀ read_multiple : List ReadKey → Gen ε α,
      Events read_multiple [] = read_multiple [] := by
  refine ⟨fun t ht => by simp [normalizeTag, ht], by decide, by decide,
    by decide, by decide, rfl, fun rm => forward_eq _⟩

/-- C10 witness: the lowercase identifier none passes through verbatim. -/
theorem normalization_exact_and_empty_request_example :
    normalizeTag "none" = some "none" :=
  (normalization_exact_and_empty_request (ε := String) (α := Nat)).1
    "none" (by decide)

end TestStreamService
